import Mathlib

/-!
Shallow embedding of the realtime messaging relay in `src/server.js`
(the socket.io revision: `user-login`, `send-message`, `mark-as-read`,
`get-user-messages`, `disconnect` handlers and the `GET /messages/:userId`
route).  Handlers are modelled as pure functions from a server state and an
event payload to a new server state plus the list of emitted socket events.
MongoDB collections become in-memory lists; the `connectedUsers` Map becomes
an association list with JavaScript `Map` semantics (unique keys, `set`
replaces in place, `get` finds, `delete` removes); socket.io rooms become a
list of (room, socketId) membership pairs; `Date` values become `Nat`
timestamps supplied by the caller.  File-attachment metadata is carried
through as optional fields, mirroring the schema.
-/

/-- A persisted chat document (the `Chat` mongoose model of the socket.io
revision).  `id` stands for the server-assigned `_id`.  Timestamps are `Nat`. -/
structure Msg where
  id : Nat
  roomId : String
  senderId : String
  senderName : String
  senderRole : String
  receiverId : String
  receiverName : String
  message : String
  messageType : String
  fileUrl : Option String
  fileName : Option String
  fileSize : Option Nat
  read : Bool
  delivered : Bool
  timestamp : Nat
deriving DecidableEq, Repr

/-- The value stored in the `connectedUsers` Map: the socket id plus the
cached user document fields the handlers actually consult (`role`, `name`). -/
structure ConnInfo where
  socketId : String
  role : String
  name : String
deriving DecidableEq, Repr

/-- A document of the `User` mongoose model (fields the handlers touch). -/
structure UserRec where
  userId : String
  name : String
  email : String
  nim : String
  prodi : String
  role : String
  online : Bool
  lastSeen : Nat
  socketId : String
deriving DecidableEq, Repr

/-- Where a socket.io emit is addressed: one socket (`socket.emit` /
`io.to(socketId)`) or a room (`io.to(roomName)`). -/
inductive Target where
  | socket (sid : String)
  | room (name : String)
deriving DecidableEq, Repr

/-- Payload of an emitted event. -/
inductive Payload where
  | msg (m : Msg)
  | msgs (l : List Msg)
  | status (userId name : String) (online : Bool) (lastSeen : Nat)
deriving DecidableEq, Repr

/-- One emitted socket.io event. -/
structure Emit where
  target : Target
  event : String
  payload : Payload
deriving DecidableEq, Repr

/-- The whole observable server state: the Chat collection (`db`, in insertion
order, with the next `_id` to assign), the User collection, the
`connectedUsers` Map and room memberships. -/
structure ServerState where
  db : List Msg
  nextId : Nat
  users : List UserRec
  connected : List (String × ConnInfo)
  rooms : List (String × String)
deriving DecidableEq, Repr

/-- Payload of the `user-login` event. -/
structure LoginData where
  userId : String
  name : String
  email : String
  nim : String
  prodi : String
  role : String
deriving DecidableEq, Repr

/-- Payload of the `send-message` event. -/
structure SendData where
  roomId : String
  senderId : String
  senderName : String
  senderRole : String
  receiverId : String
  receiverName : String
  message : String
  messageType : String
  fileUrl : Option String
  fileName : Option String
  fileSize : Option Nat
deriving DecidableEq, Repr

/-- The welcome message scheduled by `setTimeout(..., 2000)` in the
`user-login` handler: its delay in milliseconds, the socket it will be
emitted to, and the user it addresses. -/
structure ScheduledWelcome where
  delayMs : Nat
  socketId : String
  userId : String
  name : String
deriving DecidableEq, Repr

/-- JavaScript `Map.prototype.get`: the entry for the key, if any. -/
def mapGet (m : List (String × ConnInfo)) (k : String) : Option ConnInfo :=
  (m.find? (fun p => p.1 = k)).map (fun p => p.2)

/-- JavaScript `Map.prototype.set`: replaces the value at an existing key in
place, otherwise appends the new entry. -/
def mapSet : List (String × ConnInfo) → String → ConnInfo → List (String × ConnInfo)
  | [], k, v => [(k, v)]
  | p :: rest, k, v => if p.1 = k then (k, v) :: rest else p :: mapSet rest k v

/-- The room name `user_${userId}` used throughout the server
(login `socket.join`, the welcome message's `roomId`, and the history
queries). -/
def userRoom (userId : String) : String := "user_" ++ userId

/-- The `$or` filter shared by the `user-login` backfill, the
`get-user-messages` handler and `GET /messages/:userId`:
`roomId = user_<id> OR senderId = id OR receiverId = id`. -/
def historyFilter (userId : String) (m : Msg) : Bool :=
  m.roomId = userRoom userId || m.senderId = userId || m.receiverId = userId

/-- Message comparison used by `.sort(\x7b timestamp: 1 \x7d)`: ascending
timestamp, i.e. oldest first. -/
def msgLe (a b : Msg) : Prop := a.timestamp ≤ b.timestamp

instance : DecidableRel msgLe := fun a b => Nat.decLe a.timestamp b.timestamp

instance : IsTotal Msg msgLe := ⟨fun a b => Nat.le_total a.timestamp b.timestamp⟩

instance : IsTrans Msg msgLe := ⟨fun _ _ _ h1 h2 => Nat.le_trans h1 h2⟩

/-- `Chat.find(historyFilter).sort(\x7b timestamp: 1 \x7d)`: all stored messages
involving the user, ordered oldest first.  The handler takes no limit
parameter. -/
def fetchHistory (db : List Msg) (userId : String) : List Msg :=
  List.insertionSort msgLe (db.filter (historyFilter userId))

/-- The message object built inside the `send-message` handler (before
`Chat.create`): `read: false`, `delivered: false`, server timestamp. -/
def draftMsg (st : ServerState) (d : SendData) (now : Nat) : Msg :=
  { id := st.nextId, roomId := d.roomId, senderId := d.senderId,
    senderName := d.senderName, senderRole := d.senderRole,
    receiverId := d.receiverId, receiverName := d.receiverName,
    message := d.message, messageType := d.messageType,
    fileUrl := d.fileUrl, fileName := d.fileName, fileSize := d.fileSize,
    read := false, delivered := false, timestamp := now }

/-- The `send-message` handler: persists the draft via `Chat.create`, fans it
out (`senderRole === 'user'` → broadcast to `admin_room` plus echo to the
sender's socket; otherwise a lookup of the receiver in `connectedUsers` plus
the echo), then unconditionally runs `savedMessage.delivered = true;
savedMessage.save()` — modelled as an in-place update of the stored document
by id. -/
def sendMessage (st : ServerState) (senderSocket : String) (d : SendData)
    (now : Nat) : ServerState × List Emit :=
  let m := draftMsg st d now
  let db1 := st.db ++ [m]
  let emits :=
    if d.senderRole = "user" then
      [⟨Target.room "admin_room", "new-message", Payload.msg m⟩,
       ⟨Target.socket senderSocket, "new-message", Payload.msg m⟩]
    else
      (match mapGet st.connected d.receiverId with
        | some c => [⟨Target.socket c.socketId, "new-message", Payload.msg m⟩]
        | none => []) ++
      [⟨Target.socket senderSocket, "new-message", Payload.msg m⟩]
  let db2 := db1.map (fun x => if x.id = m.id then { x with delivered := true } else x)
  ({ st with db := db2, nextId := st.nextId + 1 }, emits)

/-- The welcome message created inside the login handler's `setTimeout`
callback (no `read`/`delivered` fields are supplied, so the schema defaults
`false` apply). -/
def welcomeMsg (uid nm : String) (idv ts : Nat) : Msg :=
  { id := idv, roomId := userRoom uid, senderId := "admin_system",
    senderName := "Admin Taiso Talk", senderRole := "admin",
    receiverId := uid, receiverName := nm,
    message := "Halo " ++ nm ++ "! Selamat datang di Taiso Talk. Ada yang bisa kami bantu?",
    messageType := "text", fileUrl := none, fileName := none, fileSize := none,
    read := false, delivered := false, timestamp := ts }

/-- Running the scheduled welcome action (the `setTimeout` callback):
`Chat.create(welcomeMessage)` then `socket.emit('new-message', ...)`. -/
def runScheduledWelcome (st : ServerState) (w : ScheduledWelcome) (now : Nat) :
    ServerState × List Emit :=
  let m := welcomeMsg w.userId w.name st.nextId now
  ({ st with db := st.db ++ [m], nextId := st.nextId + 1 },
   [⟨Target.socket w.socketId, "new-message", Payload.msg m⟩])

/-- The `user-login` handler: upserts the User document by email
(`findOneAndUpdate` with `$set` of every login field, `online: true`,
`socketId`, `lastSeen`), stores the connection in `connectedUsers`, joins
`user_<id>` (and `admin_room` when `role === 'user'`), schedules the welcome
message (role `user` only, delay 2000 ms), emits `user-status-changed` to
`admin_room` (role `user` only), and emits the `previous-messages` backfill
to the logging-in socket.  Returns (state, emitted events, scheduled
welcome actions). -/
def userLogin (st : ServerState) (socketId : String) (d : LoginData)
    (now : Nat) : ServerState × List Emit × List ScheduledWelcome :=
  let urec : UserRec :=
    { userId := d.userId, name := d.name, email := d.email, nim := d.nim,
      prodi := d.prodi, role := d.role, online := true, lastSeen := now,
      socketId := socketId }
  let users' :=
    if st.users.any (fun u => u.email = d.email) then
      st.users.map (fun u => if u.email = d.email then urec else u)
    else st.users ++ [urec]
  let connected' := mapSet st.connected d.userId ⟨socketId, d.role, d.name⟩
  let rooms1 := st.rooms ++ [(userRoom d.userId, socketId)]
  let rooms2 := if d.role = "user" then rooms1 ++ [("admin_room", socketId)] else rooms1
  let sched : List ScheduledWelcome :=
    if d.role = "user" then [⟨2000, socketId, d.userId, d.name⟩] else []
  let statusEmits : List Emit :=
    if d.role = "user" then
      [⟨Target.room "admin_room", "user-status-changed",
        Payload.status d.userId d.name true now⟩]
    else []
  let st' := { st with users := users', connected := connected', rooms := rooms2 }
  (st',
   statusEmits ++
     [⟨Target.socket socketId, "previous-messages", Payload.msgs (fetchHistory st.db d.userId)⟩],
   sched)

/-- The `mark-as-read` handler's database effect:
`Chat.updateMany(\x7b _id: \x7b $in: messageIds \x7d \x7d, \x7b $set: \x7b read: true \x7d \x7d)`. -/
def markAsRead (db : List Msg) (ids : List Nat) : List Msg :=
  db.map (fun m => if m.id ∈ ids then { m with read := true } else m)

/-- The `mark-as-read` handler: updates the listed documents and emits
nothing. -/
def markAsReadHandler (st : ServerState) (ids : List Nat) : ServerState × List Emit :=
  ({ st with db := markAsRead st.db ids }, [])

/-- The `get-user-messages` handler (and the `GET /messages/:userId` route):
emits the full sorted history for the user to the requesting socket. -/
def getUserMessagesHandler (st : ServerState) (socketId userId : String) : List Emit :=
  [⟨Target.socket socketId, "user-messages", Payload.msgs (fetchHistory st.db userId)⟩]

/-- The `disconnect` handler: finds the `connectedUsers` entry whose stored
socket id equals the disconnecting socket's id; if none matches (stale
handle), nothing happens; otherwise the entry is deleted, the User document
is updated to `online: false` with a fresh `lastSeen`, and — when the cached
role is `user` — `user-status-changed` is emitted to `admin_room`. -/
def disconnectHandler (st : ServerState) (socketId : String) (now : Nat) :
    ServerState × List Emit :=
  match st.connected.find? (fun p => p.2.socketId = socketId) with
  | none => (st, [])
  | some p =>
    let connected' := st.connected.eraseP (fun q => q.1 = p.1)
    let users' := st.users.map (fun u =>
      if u.userId = p.1 then { u with online := false, lastSeen := now } else u)
    let emits : List Emit :=
      if p.2.role = "user" then
        [⟨Target.room "admin_room", "user-status-changed",
          Payload.status p.1 p.2.name false now⟩]
      else []
    ({ st with connected := connected', users := users' }, emits)

/-- Whether an emitted event reaches the given socket: a direct emit to that
socket, or a room emit to a room the socket has joined (socket.io `io.to`
includes the originating socket when it is a member of the room). -/
def reaches (st : ServerState) (e : Emit) (sid : String) : Bool :=
  match e.target with
  | Target.socket s => s = sid
  | Target.room r => decide ((r, sid) ∈ st.rooms)

/-- How many `new-message` events of an emission list reach the given
socket. -/
def deliveriesTo (st : ServerState) (emits : List Emit) (sid : String) : Nat :=
  (emits.filter (fun e => e.event = "new-message" && reaches st e sid)).length

/-- A participant identity as the spec's resolver sees it: an id and a role. -/
structure Identity where
  id : String
  role : String
deriving DecidableEq, Repr

/-- The conversation key of a pair of participants, read off the code's
keying convention: every conversation the server itself constructs is the
room `user_<id>` of the participant with role `user` (the login handler's
`user_${userId}` join and the welcome message's `roomId`); the staff-side
identity never enters the key.  For a pair, pick the `user`-role side. -/
def conversationOf (a b : Identity) : String :=
  if a.role = "user" then userRoom a.id else userRoom b.id

/-- Modelled from the spec: VisibilityPolicy — `admin` sees all, `sub_admin`
sees only `user`, `user` sees only `admin` and `sub_admin`, same-role
visibility denied.  No such check exists anywhere in `src/server.js`; this
definition only serves to state the policy-related claims. -/
def canAddress (viewerRole candidateRole : String) : Bool :=
  if viewerRole = "admin" then true
  else if viewerRole = "sub_admin" then candidateRole = "user"
  else if viewerRole = "user" then
    candidateRole = "admin" || candidateRole = "sub_admin"
  else false

/-! Concrete fixtures used by counterexamples and witnesses. -/

/-- The empty initial server state. -/
def emptyState : ServerState :=
  { db := [], nextId := 0, users := [], connected := [], rooms := [] }

/-- Login data of end-user `u1`. -/
def u1Login : LoginData :=
  { userId := "u1", name := "Udin", email := "u1@mail", nim := "1",
    prodi := "TI", role := "user" }

/-- Login data of end-user `u2`. -/
def u2Login : LoginData :=
  { userId := "u2", name := "Ucok", email := "u2@mail", nim := "2",
    prodi := "TI", role := "user" }

/-- Login data of admin `a1`. -/
def a1Login : LoginData :=
  { userId := "a1", name := "Alice", email := "a1@mail", nim := "9",
    prodi := "ST", role := "admin" }

/-- State after `u1` logs in on socket `s1`. -/
def stU1 : ServerState := (userLogin emptyState "s1" u1Login 0).1

/-- State after `u1` (socket `s1`) and then `u2` (socket `s2`) log in. -/
def stU1U2 : ServerState := (userLogin stU1 "s2" u2Login 1).1

/-- State after `u1` (socket `s1`) and then admin `a1` (socket `sA`) log in. -/
def stU1A1 : ServerState := (userLogin stU1 "sA" a1Login 1).1

/-- A user-to-user send draft: `u1` addressing `u2`. -/
def sendU1toU2 : SendData :=
  { roomId := "user_u1", senderId := "u1", senderName := "Udin",
    senderRole := "user", receiverId := "u2", receiverName := "Ucok",
    message := "hi", messageType := "text",
    fileUrl := none, fileName := none, fileSize := none }

/-- An admin-to-user send draft: `a1` addressing `u1`. -/
def sendA1toU1 : SendData :=
  { roomId := "user_u1", senderId := "a1", senderName := "Alice",
    senderRole := "admin", receiverId := "u1", receiverName := "Udin",
    message := "halo", messageType := "text",
    fileUrl := none, fileName := none, fileSize := none }


/-- Messages used by the history counterexample: two stored messages
addressed to `u1`, timestamps 1 and 2. -/
def mkMsg (i : Nat) (room sid rid : String) (ts : Nat) : Msg :=
  { id := i, roomId := room, senderId := sid, senderName := sid,
    senderRole := "admin", receiverId := rid, receiverName := rid,
    message := "m", messageType := "text",
    fileUrl := none, fileName := none, fileSize := none,
    read := false, delivered := false, timestamp := ts }

/-- A stored Chat collection with two messages involving `u1`. -/
def histDb : List Msg :=
  [mkMsg 0 "user_u1" "a1" "u1" 1, mkMsg 1 "user_u1" "a1" "u1" 2]

/-- C4: the claim as stated is false on the code: the conversation key is
derived from the `user`-role participant alone, so for two distinct
`user`-role identities (both non-empty) the resolver is not symmetric:
resolve(u1,u2) = "user_u1" but resolve(u2,u1) = "user_u2". -/
theorem conversationOf_not_symm_counterexample :
    Identity.id ⟨"u1", "user"⟩ ≠ "" ∧ Identity.id ⟨"u2", "user"⟩ ≠ "" ∧
    conversationOf ⟨"u1", "user"⟩ ⟨"u2", "user"⟩ ≠
      conversationOf ⟨"u2", "user"⟩ ⟨"u1", "user"⟩ := by
  decide

/-- C4 (amended): the conversation key is derived from the `user`-role
participant alone (`user_<id>`); for every pair in which exactly one
participant has role `user`, the derivation is independent of who comes
first: `conversationOf a b = conversationOf b a = userRoom a.id` where `a`
is the `user`-role side. -/
theorem conversationOf_symm_of_mixed_pair (a b : Identity)
    (h : a.role = "user") (h2 : ¬ b.role = "user") :
    conversationOf a b = conversationOf b a ∧
    conversationOf a b = userRoom a.id := by
  simp [conversationOf, h, h2]

/-- Witness for C4's amended theorem at a concrete user/admin pair. -/
theorem conversationOf_symm_of_mixed_pair_witness :
    conversationOf ⟨"u1", "user"⟩ ⟨"a1", "admin"⟩ =
      conversationOf ⟨"a1", "admin"⟩ ⟨"u1", "user"⟩ ∧
    conversationOf ⟨"u1", "user"⟩ ⟨"a1", "admin"⟩ = userRoom "u1" :=
  conversationOf_symm_of_mixed_pair ⟨"u1", "user"⟩ ⟨"a1", "admin"⟩ (by decide) (by decide)

/-- C8: the mark-read database update is idempotent: applying
`updateMany(read := true)` twice with the same id list yields the same
stored state as applying it once. -/
theorem markAsRead_idempotent (db : List Msg) (ids : List Nat) :
    markAsRead (markAsRead db ids) ids = markAsRead db ids := by
  unfold markAsRead
  rw [List.map_map]
  apply List.map_congr_left
  intro m _
  by_cases h : m.id ∈ ids
  · simp [Function.comp, h]
  · simp [Function.comp, h]

/-- C9 (amended): the history fetch returns the stored messages involving
the user ordered oldest-first (ascending timestamp), and it returns all of
them — the result is a permutation of the unfiltered match set; the handler
has no limit parameter. -/
theorem fetchHistory_sorted_oldest_first (db : List Msg) (u : String) :
    List.Sorted msgLe (fetchHistory db u) ∧
    List.Perm (fetchHistory db u) (db.filter (historyFilter u)) :=
  ⟨List.sorted_insertionSort msgLe (db.filter (historyFilter u)),
   List.perm_insertionSort msgLe (db.filter (historyFilter u))⟩

/-- C9: the bound part of the claim is false: with two stored messages
involving `u1`, the fetched history has length 2, exceeding a limit of 1 —
the handler applies no limit. -/
theorem fetchHistory_unbounded_counterexample :
    ¬ (fetchHistory histDb "u1").length ≤ 1 := by
  decide

/-- C2 (amended): the send handler performs no visibility-policy
validation: a send whose `senderRole` is `user` always succeeds — exactly
one message is persisted, no `message-error` is emitted, and the fan-out is
the `admin_room` broadcast plus the echo to the sender's socket. -/
theorem sendMessage_no_policy_enforcement (st : ServerState) (s : String)
    (d : SendData) (now : Nat) (h : d.senderRole = "user") :
    (sendMessage st s d now).1.db.length = st.db.length + 1 ∧
    (sendMessage st s d now).2.filter (fun e => e.event = "message-error") = [] ∧
    (sendMessage st s d now).2 =
      [⟨Target.room "admin_room", "new-message", Payload.msg (draftMsg st d now)⟩,
       ⟨Target.socket s, "new-message", Payload.msg (draftMsg st d now)⟩] := by
  refine ⟨?_, ?_, ?_⟩
  · simp [sendMessage]
  · simp [sendMessage, h]
  · simp [sendMessage, h]

/-- Witness for C2's amended theorem: the reachable two-user state. -/
theorem sendMessage_no_policy_enforcement_witness :
    (sendMessage stU1U2 "s1" sendU1toU2 7).1.db.length = stU1U2.db.length + 1 ∧
    (sendMessage stU1U2 "s1" sendU1toU2 7).2.filter
        (fun e => e.event = "message-error") = [] ∧
    (sendMessage stU1U2 "s1" sendU1toU2 7).2 =
      [⟨Target.room "admin_room", "new-message",
        Payload.msg (draftMsg stU1U2 sendU1toU2 7)⟩,
       ⟨Target.socket "s1", "new-message",
        Payload.msg (draftMsg stU1U2 sendU1toU2 7)⟩] :=
  sendMessage_no_policy_enforcement stU1U2 "s1" sendU1toU2 7 rfl

/-- C2: the claim as stated is false on the code: with `u1` and `u2` both
registered with role `user` (VisibilityPolicy denies user→user), the send
from `u1` to `u2` persists a message and emits no error event — no
`PolicyViolation` exists. -/
theorem user_to_user_send_not_rejected_counterexample :
    canAddress "user" "user" = false ∧
    mapGet stU1U2.connected "u1" = some ⟨"s1", "user", "Udin"⟩ ∧
    mapGet stU1U2.connected "u2" = some ⟨"s2", "user", "Ucok"⟩ ∧
    (sendMessage stU1U2 "s1" sendU1toU2 7).1.db.length = 1 ∧
    (sendMessage stU1U2 "s1" sendU1toU2 7).2.filter
      (fun e => e.event = "message-error") = [] := by
  decide

/-- C3 (amended): a `user`-role sender whose socket joined `admin_room` at
login receives the sent message on their own connection twice — once via
the `admin_room` broadcast (which includes the sender's socket) and once
via the direct echo — not exactly once. -/
theorem sendMessage_user_sender_double_delivery (st : ServerState) (s : String)
    (d : SendData) (now : Nat) (h : d.senderRole = "user")
    (hm : ("admin_room", s) ∈ st.rooms) :
    deliveriesTo st ((sendMessage st s d now).2) s = 2 := by
  simp [sendMessage, h, deliveriesTo, reaches, hm]

/-- Witness for C3's amended theorem at the reachable one-user state. -/
theorem sendMessage_user_sender_double_delivery_witness :
    deliveriesTo stU1 ((sendMessage stU1 "s1" sendU1toU2 5).2) "s1" = 2 :=
  sendMessage_user_sender_double_delivery stU1 "s1" sendU1toU2 5 rfl (by decide)

/-- C3: the claim as stated is false on the code: after `u1` logs in
(joining `admin_room`), a send by `u1` reaches `u1`'s own connection twice,
not exactly once. -/
theorem sender_confirmation_count_counterexample :
    ("admin_room", "s1") ∈ stU1.rooms ∧
    deliveriesTo stU1 ((sendMessage stU1 "s1" sendU1toU2 6).2) "s1" ≠ 1 := by
  decide

/-- C1 (amended): a send whose receiver has no live connection still
persists exactly one message, retrievable via the receiver's history fetch
— but the handler then unconditionally marks it `delivered = true`, so the
stored flag is true even though nobody received it live. -/
theorem sendMessage_offline_receiver_persists_delivered_true
    (st : ServerState) (s : String) (d : SendData) (now : Nat)
    (hoff : mapGet st.connected d.receiverId = none)
    (hfresh : ∀ m ∈ st.db, m.id ≠ st.nextId) :
    (sendMessage st s d now).1.db
        = st.db ++ [{ draftMsg st d now with delivered := true }] ∧
    ({ draftMsg st d now with delivered := true }).delivered = true ∧
    { draftMsg st d now with delivered := true } ∈
        fetchHistory ((sendMessage st s d now).1.db) d.receiverId := by
  have hdb : (sendMessage st s d now).1.db
      = st.db ++ [{ draftMsg st d now with delivered := true }] := by
    show ((st.db ++ [draftMsg st d now]).map
        (fun x => if x.id = (draftMsg st d now).id then { x with delivered := true } else x))
      = st.db ++ [{ draftMsg st d now with delivered := true }]
    rw [List.map_append]
    congr 1
    · conv_rhs => rw [← List.map_id st.db]
      apply List.map_congr_left
      intro m hm
      have hne : m.id ≠ (draftMsg st d now).id := hfresh m hm
      simp [hne]
    · simp
  refine ⟨hdb, rfl, ?_⟩
  rw [hdb]
  have hmem : { draftMsg st d now with delivered := true } ∈
      (st.db ++ [{ draftMsg st d now with delivered := true }]).filter
        (historyFilter d.receiverId) := by
    apply List.mem_filter.mpr
    refine ⟨List.mem_append_right _ (List.mem_singleton_self _), ?_⟩
    simp [historyFilter, draftMsg]
  exact (List.mem_insertionSort (r := msgLe)).mpr hmem

/-- Witness for C1's amended theorem: admin send to offline `u1` on the
empty state. -/
theorem sendMessage_offline_receiver_witness :
    (sendMessage emptyState "sA" sendA1toU1 5).1.db
        = emptyState.db ++ [{ draftMsg emptyState sendA1toU1 5 with delivered := true }] ∧
    ({ draftMsg emptyState sendA1toU1 5 with delivered := true }).delivered = true ∧
    { draftMsg emptyState sendA1toU1 5 with delivered := true } ∈
        fetchHistory ((sendMessage emptyState "sA" sendA1toU1 5).1.db)
          sendA1toU1.receiverId :=
  sendMessage_offline_receiver_persists_delivered_true emptyState "sA" sendA1toU1 5
    (by decide) (by simp [emptyState])

/-- C1: the claim as stated is false on the code: sending to `u1`, who has
no live connection, leaves exactly one stored message whose `delivered`
flag is `true`, not `false`. -/
theorem offline_receiver_delivered_flag_counterexample :
    mapGet emptyState.connected "u1" = none ∧
    (sendMessage emptyState "sA" sendA1toU1 5).1.db.map
      (fun m => m.delivered) = [true] := by
  decide

/-- C5 (amended): presence events are emitted only for subjects whose role
is `user`, always to the `admin_room` room (whose members are the sockets
of previously logged-in `user`-role identities — including the subject's
own just-joined socket), with no per-recipient policy filtering: a
`user`-role login emits exactly one `user-status-changed` broadcast and
joins the subject to `admin_room`; any other role emits none; an effective
disconnect emits the offline broadcast exactly when the cached role is
`user`, and a stale disconnect emits nothing. -/
theorem presence_broadcast_user_only (st : ServerState) (s : String)
    (d : LoginData) (now now2 : Nat) :
    ((userLogin st s d now).2.1.filter (fun e => e.event = "user-status-changed")
        = if d.role = "user" then
            [⟨Target.room "admin_room", "user-status-changed",
              Payload.status d.userId d.name true now⟩]
          else []) ∧
    (d.role = "user" → ("admin_room", s) ∈ (userLogin st s d now).1.rooms) ∧
    (∀ p, st.connected.find? (fun q => q.2.socketId = s) = some p →
        (disconnectHandler st s now2).2 =
          if p.2.role = "user" then
            [⟨Target.room "admin_room", "user-status-changed",
              Payload.status p.1 p.2.name false now2⟩]
          else []) ∧
    (st.connected.find? (fun q => q.2.socketId = s) = none →
        (disconnectHandler st s now2).2 = []) := by
  refine ⟨?_, ?_, ?_, ?_⟩
  · by_cases h : d.role = "user" <;> simp [userLogin, h]
  · intro h
    simp [userLogin, h]
  · intro p hp
    simp [disconnectHandler, hp]
  · intro hn
    simp [disconnectHandler, hn]

/-- Witness for C5's amended theorem: `u2`'s login joins `admin_room`, and
`u1`'s effective disconnect broadcasts the offline event to `admin_room`. -/
theorem presence_broadcast_user_only_witness :
    ("admin_room", "s2") ∈ (userLogin stU1 "s2" u2Login 1).1.rooms ∧
    (disconnectHandler stU1 "s1" 9).2 =
      [⟨Target.room "admin_room", "user-status-changed",
        Payload.status "u1" "Udin" false 9⟩] := by
  refine ⟨(presence_broadcast_user_only stU1 "s2" u2Login 1 9).2.1 rfl, ?_⟩
  have h := (presence_broadcast_user_only stU1 "s1" u2Login 1 9).2.2.1
    ("u1", ⟨"s1", "user", "Udin"⟩) (by decide)
  simpa using h

/-- C5: the claim as stated is false on the code: when admin `a1` registers
while `u1` is live and registered (and VisibilityPolicy lets a `user` see
an `admin`), no presence-changed event at all is broadcast — non-`user`
subjects trigger no broadcast. -/
theorem admin_login_no_presence_broadcast_counterexample :
    mapGet stU1.connected "u1" = some ⟨"s1", "user", "Udin"⟩ ∧
    canAddress "user" "admin" = true ∧
    (userLogin stU1 "sA" a1Login 1).2.1.filter
      (fun e => e.event = "user-status-changed") = [] := by
  decide

/-- `Map.get` after `Map.set` of the same key returns the new value. -/
theorem mapGet_mapSet (l : List (String × ConnInfo)) (k : String) (v : ConnInfo) :
    mapGet (mapSet l k v) k = some v := by
  induction l with
  | nil => simp [mapSet, mapGet]
  | cons p rest ih =>
    by_cases h : p.1 = k
    · simp [mapSet, h, mapGet]
    · rw [mapSet, if_neg h]
      unfold mapGet
      rw [List.find?_cons_of_neg (mapSet rest k v) (by simpa using h)]
      exact ih

/-- After `Map.set`, the entries at the key are exactly the new one
(assuming the JavaScript `Map` invariant: keys are unique). -/
theorem filter_mapSet (l : List (String × ConnInfo)) (k : String) (v : ConnInfo)
    (h : (l.map (fun p => p.1)).Nodup) :
    (mapSet l k v).filter (fun p => p.1 = k) = [(k, v)] := by
  induction l with
  | nil => simp [mapSet]
  | cons p rest ih =>
    rw [List.map_cons, List.nodup_cons] at h
    by_cases hp : p.1 = k
    · have hrest : rest.filter (fun q => q.1 = k) = [] := by
        apply List.filter_eq_nil_iff.mpr
        intro q hq hqk
        exact h.1 (by
          have : p.1 = q.1 := by rw [hp, of_decide_eq_true hqk]
          exact this ▸ List.mem_map_of_mem (fun p => p.1) hq)
      simp [mapSet, hp, hrest]
    · simp [mapSet, hp, ih h.2]

/-- After a login stores the new handle for a key, no stored entry carries
the superseded socket id (given unique keys and that the old socket id
belonged only to that key). -/
theorem find?_socket_mapSet_none (l : List (String × ConnInfo)) (k : String)
    (v : ConnInfo) (s1 : String) (hv : ¬ v.socketId = s1)
    (hOld : ∀ p ∈ l, p.2.socketId = s1 → p.1 = k)
    (hN : (l.map (fun p => p.1)).Nodup) :
    (mapSet l k v).find? (fun p => p.2.socketId = s1) = none := by
  induction l with
  | nil => simp [mapSet, hv]
  | cons p rest ih =>
    rw [List.map_cons, List.nodup_cons] at hN
    by_cases hp : p.1 = k
    · rw [mapSet, if_pos hp]
      apply List.find?_eq_none.mpr
      intro q hq
      rcases List.mem_cons.mp hq with h1 | h2
      · subst h1
        simpa using hv
      · simp only [decide_eq_true_eq]
        intro hqs
        have hqk : q.1 = k := hOld q (List.mem_cons_of_mem p h2) hqs
        exact absurd (by
          have : p.1 = q.1 := by rw [hp, hqk]
          exact this ▸ List.mem_map_of_mem (fun p => p.1) h2) hN.1
    · rw [mapSet, if_neg hp]
      have hps : ¬ p.2.socketId = s1 := fun hs => hp (hOld p (List.mem_cons_self p rest) hs)
      rw [List.find?_cons_of_neg (mapSet rest k v) (by simpa using hps)]
      exact ih (fun q hq hqs => hOld q (List.mem_cons_of_mem p hq) hqs) hN.2

/-- C6: registering an identity a second time leaves exactly one stored
handle (the newer socket), lookups used by routing return the newer socket,
and a disconnect arriving on the superseded socket is a complete no-op: the
state (including the User collection's `online`/`lastSeen`) is unchanged
and nothing is emitted. -/
theorem register_supersedes_stale_disconnect_noop
    (st : ServerState) (d : LoginData) (s1 s2 : String) (now now2 : Nat)
    (hne : s1 ≠ s2)
    (hOld : ∀ p ∈ st.connected, p.2.socketId = s1 → p.1 = d.userId)
    (hN : (st.connected.map (fun p => p.1)).Nodup) :
    (((userLogin st s2 d now).1.connected.filter (fun p => p.1 = d.userId)).map
        (fun p => p.2.socketId) = [s2]) ∧
    mapGet (userLogin st s2 d now).1.connected d.userId = some ⟨s2, d.role, d.name⟩ ∧
    disconnectHandler (userLogin st s2 d now).1 s1 now2 =
      ((userLogin st s2 d now).1, []) := by
  have hc : (userLogin st s2 d now).1.connected
      = mapSet st.connected d.userId ⟨s2, d.role, d.name⟩ := rfl
  refine ⟨?_, ?_, ?_⟩
  · rw [hc, filter_mapSet _ _ _ hN]
    rfl
  · rw [hc, mapGet_mapSet]
  · have hfind : ((userLogin st s2 d now).1.connected.find?
        (fun p => p.2.socketId = s1)) = none := by
      rw [hc]
      exact find?_socket_mapSet_none st.connected d.userId _ s1
        (by simpa using (Ne.symm hne)) hOld hN
    simp [disconnectHandler, hfind]

/-- Witness for C6: `u1` re-registers on socket `s1b`; the stale disconnect
of `s1` changes nothing. -/
theorem register_supersedes_stale_disconnect_noop_witness :
    (((userLogin stU1 "s1b" u1Login 3).1.connected.filter
        (fun p => p.1 = "u1")).map (fun p => p.2.socketId) = ["s1b"]) ∧
    mapGet (userLogin stU1 "s1b" u1Login 3).1.connected "u1" =
      some ⟨"s1b", "user", "Udin"⟩ ∧
    disconnectHandler (userLogin stU1 "s1b" u1Login 3).1 "s1" 9 =
      ((userLogin stU1 "s1b" u1Login 3).1, []) :=
  register_supersedes_stale_disconnect_noop stU1 u1Login "s1" "s1b" 3 9
    (by decide) (by decide) (by decide)

/-- A stored collection plus a live admin connection, used by the mark-read
theorems. -/
def stRead : ServerState :=
  { db := histDb, nextId := 2, users := [],
    connected := [("a1", ⟨"sA", "admin", "Alice"⟩)], rooms := [] }

/-- C7 (amended): the mark-read handler takes an explicit list of message
ids and sets `read = true` on exactly those stored messages — with no
conversation or addressee filtering — emits nothing (so no read-receipt is
ever sent, reachable sender or not), and touches no other state. -/
theorem markAsRead_marks_listed_ids_only_no_notification
    (st : ServerState) (ids : List Nat) :
    (markAsReadHandler st ids).2 = [] ∧
    (markAsReadHandler st ids).1.db.length = st.db.length ∧
    (markAsReadHandler st ids).1.connected = st.connected ∧
    (∀ m ∈ st.db, m.id ∈ ids →
      { m with read := true } ∈ (markAsReadHandler st ids).1.db) ∧
    (∀ m ∈ st.db, m.id ∉ ids → m ∈ (markAsReadHandler st ids).1.db) := by
  refine ⟨rfl, ?_, rfl, ?_, ?_⟩
  · simp [markAsReadHandler, markAsRead]
  · intro m hm hid
    have h2 : (fun m => if m.id ∈ ids then { m with read := true } else m) m
        = { m with read := true } := if_pos hid
    have := List.mem_map_of_mem
      (fun m => if m.id ∈ ids then { m with read := true } else m) hm
    rw [h2] at this
    exact this
  · intro m hm hid
    have h2 : (fun m => if m.id ∈ ids then { m with read := true } else m) m = m :=
      if_neg hid
    have := List.mem_map_of_mem
      (fun m => if m.id ∈ ids then { m with read := true } else m) hm
    rw [h2] at this
    exact this

/-- Witness for C7's amended theorem: marking id 0 stores the read flag. -/
theorem markAsRead_marks_listed_ids_witness :
    { mkMsg 0 "user_u1" "a1" "u1" 1 with read := true } ∈
      (markAsReadHandler stRead [0]).1.db :=
  (markAsRead_marks_listed_ids_only_no_notification stRead [0]).2.2.2.1
    (mkMsg 0 "user_u1" "a1" "u1" 1) (by decide) (by decide)

/-- C7: the claim as stated is false on the code: both messages of
conversation `user_u1` addressed to `u1` get `read = true`, the original
sender `a1` has a live connection, and yet the handler emits nothing — no
read-receipt event exists. -/
theorem markRead_no_read_receipt_counterexample :
    mapGet stRead.connected "a1" = some ⟨"sA", "admin", "Alice"⟩ ∧
    ((markAsReadHandler stRead [0, 1]).1.db.all (fun m => m.read)) = true ∧
    (markAsReadHandler stRead [0, 1]).2 = [] := by
  decide

/-- C10: every `user`-role login schedules exactly one welcome action with
a 2000 ms delay; running it persists a message from `admin_system` (role
`admin`) addressed to the user in their `user_<id>` conversation and emits
it to the logging-in socket; the message matches the user's history filter,
so the history fetched afterwards is never empty. -/
theorem userLogin_welcome (st : ServerState) (s : String) (d : LoginData)
    (now now2 : Nat) (h : d.role = "user") :
    (userLogin st s d now).2.2 = [⟨2000, s, d.userId, d.name⟩] ∧
    (runScheduledWelcome (userLogin st s d now).1
        ⟨2000, s, d.userId, d.name⟩ now2).1.db
      = st.db ++ [welcomeMsg d.userId d.name st.nextId now2] ∧
    (runScheduledWelcome (userLogin st s d now).1
        ⟨2000, s, d.userId, d.name⟩ now2).2
      = [⟨Target.socket s, "new-message",
          Payload.msg (welcomeMsg d.userId d.name st.nextId now2)⟩] ∧
    (welcomeMsg d.userId d.name st.nextId now2).senderId = "admin_system" ∧
    (welcomeMsg d.userId d.name st.nextId now2).senderRole = "admin" ∧
    (welcomeMsg d.userId d.name st.nextId now2).receiverId = d.userId ∧
    (welcomeMsg d.userId d.name st.nextId now2).roomId = userRoom d.userId ∧
    historyFilter d.userId (welcomeMsg d.userId d.name st.nextId now2) = true ∧
    fetchHistory (runScheduledWelcome (userLogin st s d now).1
        ⟨2000, s, d.userId, d.name⟩ now2).1.db d.userId ≠ [] := by
  refine ⟨by simp [userLogin, h], rfl, rfl, rfl, rfl, rfl, rfl, ?_, ?_⟩
  · simp [historyFilter, welcomeMsg]
  · have hmem : welcomeMsg d.userId d.name st.nextId now2 ∈
        (st.db ++ [welcomeMsg d.userId d.name st.nextId now2]).filter
          (historyFilter d.userId) := by
      apply List.mem_filter.mpr
      refine ⟨List.mem_append_right _ (List.mem_singleton_self _), ?_⟩
      simp [historyFilter, welcomeMsg]
    have hmem2 : welcomeMsg d.userId d.name st.nextId now2 ∈
        fetchHistory (st.db ++ [welcomeMsg d.userId d.name st.nextId now2]) d.userId :=
      (List.mem_insertionSort (r := msgLe)).mpr hmem
    exact List.ne_nil_of_mem hmem2

/-- Witness for C10 at a concrete first login on the empty state. -/
theorem userLogin_welcome_witness :
    (userLogin emptyState "s1" u1Login 0).2.2 = [⟨2000, "s1", "u1", "Udin"⟩] :=
  (userLogin_welcome emptyState "s1" u1Login 0 5 rfl).1
